import Mathlib

/-!
Verification of the scroll-capture registration-and-stitching engine of the
lovshot desktop utility, against its natural-language specification.

The shallow embedding below translates the Rust source:
  src-tauri/src/commands/scroll.rs  (session commands, stitcher, crop finisher)
  src-tauri/src/fft_match.rs        (strip-correlation delta detector)
  src-tauri/src/state.rs            (shared session state)

Modelling conventions:
- RgbaImage is modelled as a Raster: explicit width and height plus a
  row-major flat pixel buffer, exactly the layout of the image crate.
- f32 arithmetic is modelled as exact rational arithmetic over ℚ.  All
  quantities handled by the detector and the crop finisher are small sums,
  products and quotients of pixel values, far from f32 overflow or rounding
  pathologies; division by zero follows the Lean convention x / 0 = 0
  (it can only arise for zero-width rasters, where Rust would produce NaN).
- External effects (screen enumeration, the frame grab, file save) are
  modelled as explicit input parameters, since the engine only branches on
  their success or failure.  The base64 JPEG preview string is a lossy
  presentation artifact and is left out of the progress record; none of the
  specification claims concern its contents.
- A Rust panic (the .unwrap() of the stitched image inside the capture
  cycle) is modelled as a distinguished CycleResult.panic outcome, disjoint
  from ordinary Result errors.
-/

deriving instance DecidableEq for Except

namespace Lovshot

/-- One RGBA pixel, as stored by the image crate buffer. -/
structure Pix where
  r : ℕ
  g : ℕ
  b : ℕ
  a : ℕ
deriving DecidableEq

/-- Default (zero) pixel used by RgbaImage::new. -/
def Pix.zero : Pix := ⟨0, 0, 0, 0⟩

/-- Model of image::RgbaImage: width, height and a row-major pixel buffer. -/
structure Raster where
  width : ℕ
  height : ℕ
  data : List Pix
deriving DecidableEq

/-- Pixel lookup at (x, y), row-major; total via a default pixel. -/
def Raster.getPixel (img : Raster) (x y : ℕ) : Pix :=
  img.data.getD (y * img.width + x) Pix.zero

/-- Model of RgbaImage::new: a width by height image of zero pixels. -/
def imageNew (w h : ℕ) : Raster :=
  ⟨w, h, List.replicate (w * h) Pix.zero⟩

/-- Model of GenericImage::copy_from: fails when the source does not fit at
the given position, otherwise overwrites the rectangle at (x, y). -/
def copyFrom (dest src : Raster) (x y : ℕ) : Except String Raster :=
  if dest.width < src.width + x ∨ dest.height < src.height + y then
    Except.error "Image index out of bounds"
  else
    Except.ok ⟨dest.width, dest.height,
      (List.range (dest.width * dest.height)).map (fun k =>
        let px := k % dest.width
        let py := k / dest.width
        if x ≤ px ∧ px < x + src.width ∧ y ≤ py ∧ py < y + src.height then
          src.getPixel (px - x) (py - y)
        else
          dest.getPixel px py)⟩

/-- Model of DynamicImage::crop_imm followed by to_rgba8: the requested
rectangle, clamped to the image bounds exactly as the image crate clamps. -/
def cropImm (img : Raster) (x y cw ch : ℕ) : Raster :=
  let x0 := min x img.width
  let y0 := min y img.height
  let w := min cw (img.width - x0)
  let h := min ch (img.height - y0)
  ⟨w, h, (List.range (w * h)).map (fun k => img.getPixel (x0 + k % w) (y0 + k / w))⟩

/-- Crop edges in percent from each edge (types.rs CropEdges, f32 fields). -/
structure CropEdges where
  top : ℚ
  bottom : ℚ
  left : ℚ
  right : ℚ
deriving DecidableEq

/-- Rust f32::round rounds half away from zero; on exact rationals this is
round for nonnegative input and its mirror for negative input. -/
def f32_round (q : ℚ) : ℤ :=
  if 0 ≤ q then round q else -round (-q)

/-- Percentage-to-pixel conversion of apply_crop: round the scaled
percentage, then cast as u32 (negative values saturate to zero). -/
def crop_px (p : ℚ) (d : ℕ) : ℕ :=
  (f32_round (p / 100 * (d : ℚ))).toNat

/-- Shallow embedding of apply_crop (commands/scroll.rs).  A missing crop, or
one with no positive edge, returns the image unchanged; otherwise each
percentage is rounded against the current dimensions and the crop is
rejected when it exhausts the width or the height. -/
def apply_crop (img : Raster) (crop : Option CropEdges) : Except String Raster :=
  match crop with
  | none => Except.ok img
  | some c =>
    if c.top > 0 ∨ c.bottom > 0 ∨ c.left > 0 ∨ c.right > 0 then
      let w := img.width
      let h := img.height
      let top_px := crop_px c.top h
      let bottom_px := crop_px c.bottom h
      let left_px := crop_px c.left w
      let right_px := crop_px c.right w
      if left_px + right_px ≥ w ∨ top_px + bottom_px ≥ h then
        Except.error "Crop exceeds image bounds"
      else
        Except.ok (cropImm img left_px top_px (w - left_px - right_px) (h - top_px - bottom_px))
    else
      Except.ok img

/-- Shallow embedding of stitch_scroll_image (commands/scroll.rs).  Positive
delta appends the new content at the bottom, negative delta prepends it at
the top; overlap keeps only the non-overlapping slice of the new frame. -/
def stitch_scroll_image (base new_frame : Raster) (scroll_delta : ℤ) :
    Except String Raster :=
  let base_w := base.width
  let base_h := base.height
  let new_w := new_frame.width
  let new_h := new_frame.height
  if base_w ≠ new_w then
    Except.error "Frame width mismatch"
  else
    let abs_delta : ℕ := scroll_delta.natAbs
    if scroll_delta > 0 then
      if abs_delta ≥ new_h then
        do
          let r1 ← copyFrom (imageNew base_w (base_h + new_h)) base 0 0
          let r2 ← copyFrom r1 new_frame 0 base_h
          return r2
      else
        let pixels_to_add := min abs_delta new_h
        let crop_y := new_h - pixels_to_add
        let cropped := cropImm new_frame 0 crop_y new_w pixels_to_add
        do
          let r1 ← copyFrom (imageNew base_w (base_h + pixels_to_add)) base 0 0
          let r2 ← copyFrom r1 cropped 0 base_h
          return r2
    else
      if abs_delta ≥ new_h then
        do
          let r1 ← copyFrom (imageNew base_w (new_h + base_h)) new_frame 0 0
          let r2 ← copyFrom r1 base 0 new_h
          return r2
      else
        let pixels_to_add := min abs_delta new_h
        let cropped := cropImm new_frame 0 0 new_w pixels_to_add
        do
          let r1 ← copyFrom (imageNew base_w (base_h + pixels_to_add)) cropped 0 0
          let r2 ← copyFrom r1 base 0 pixels_to_add
          return r2

/-- Luminance of a pixel by the broadcast weighting 0.299 R + 0.587 G +
0.114 B (fft_match.rs to_grayscale), with f32 modelled as ℚ. -/
def lum (p : Pix) : ℚ :=
  (299 / 1000) * (p.r : ℚ) + (587 / 1000) * (p.g : ℚ) + (114 / 1000) * (p.b : ℚ)

/-- Shallow embedding of to_grayscale: the row-major luminance buffer. -/
def to_grayscale (img : Raster) : List ℚ :=
  (List.range img.height).flatMap (fun y =>
    (List.range img.width).map (fun x => lum (img.getPixel x y)))

/-- Shallow embedding of compute_strip_diff: sum of absolute luminance
differences between two horizontal strips, sampling every second column;
index pairs falling outside either buffer are skipped (contribute zero),
exactly as the Rust bounds guard does. -/
def compute_strip_diff (prev curr : List ℚ) (prev_y curr_y width height : ℕ) : ℚ :=
  ((List.range height).flatMap (fun dy =>
    ((List.range width).filter (fun dx => dx % 2 = 0)).map (fun dx =>
      let prev_idx := (prev_y + dy) * width + dx
      let curr_idx := (curr_y + dy) * width + dx
      if prev_idx < prev.length ∧ curr_idx < curr.length then
        |prev.getD prev_idx 0 - curr.getD curr_idx 0|
      else 0))).sum

/-- Sentinel standing for f32::MAX, the initial best score; every actual
strip score is a bounded sum of pixel differences, far below it. -/
def f32MAX : ℚ := 2 ^ 128

/-- Offsets visited by the coarse pass: (min_delta ..= search_range) in
steps of 8, with min_delta = 10. -/
def coarse_offsets (search_range : ℤ) : List ℤ :=
  if search_range < 10 then []
  else (List.range ((search_range - 10).toNat / 8 + 1)).map (fun k : ℕ => 10 + 8 * (k : ℤ))

/-- One iteration of the coarse search loop: try the downward candidate
(strip moved down by offset in the new frame), then the upward one, each
under the same feasibility guard as the Rust loop, keeping the strictly
lower score. -/
def coarse_step (pg cg : List ℚ) (w h template_y : ℕ) (st : ℚ × ℤ) (offset : ℤ) :
    ℚ × ℤ :=
  let st1 :=
    if (template_y : ℤ) + offset < (h : ℤ) - 40 then
      let diff := compute_strip_diff pg cg template_y ((template_y : ℤ) + offset).toNat w 40
      if diff < st.1 then (diff, offset) else st
    else st
  if (template_y : ℤ) - offset ≥ 0 then
    let diff := compute_strip_diff pg cg template_y ((template_y : ℤ) - offset).toNat w 40
    if diff < st1.1 then (diff, -offset) else st1
  else st1

/-- The coarse pass: fold the coarse step over the stepped offset range,
starting from (f32::MAX, 0). -/
def coarse_search (pg cg : List ℚ) (w h template_y : ℕ) (search_range : ℤ) : ℚ × ℤ :=
  (coarse_offsets search_range).foldl (coarse_step pg cg w h template_y) (f32MAX, 0)

/-- Inclusive integer range as a list (empty when lo exceeds hi). -/
def int_range (lo hi : ℤ) : List ℤ :=
  (List.range (hi + 1 - lo).toNat).map (fun k : ℕ => lo + (k : ℤ))

/-- One iteration of the refinement loop, in the direction fixed by the
coarse winner. -/
def refine_step (pg cg : List ℚ) (w h template_y : ℕ) (direction : ℤ) (st : ℚ × ℤ)
    (offset : ℤ) : ℚ × ℤ :=
  let search_y : ℤ :=
    if direction > 0 then (template_y : ℤ) + offset else (template_y : ℤ) - offset
  if search_y ≥ 0 ∧ search_y < (h : ℤ) - 40 then
    let diff := compute_strip_diff pg cg template_y search_y.toNat w 40
    if diff < st.1 then (diff, offset * direction) else st
  else st

/-- The refinement pass: re-score every offset within 8 of the coarse
winner, clamped into [min_delta, search_range], in the winning direction. -/
def refine_search (pg cg : List ℚ) (w h template_y : ℕ) (search_range : ℤ)
    (st : ℚ × ℤ) : ℚ × ℤ :=
  let refine_start := max ((st.2.natAbs : ℤ) - 8) 10
  let refine_end := min ((st.2.natAbs : ℤ) + 8) search_range
  let direction : ℤ := if st.2 ≥ 0 then 1 else -1
  (int_range refine_start refine_end).foldl
    (refine_step pg cg w h template_y direction) st

/-- Vertical position of the reference strip: h / 2 - strip_height / 2 with
strip_height = 40 (u32 arithmetic; only used once h is at least 40). -/
def template_y (h : ℕ) : ℕ := h / 2 - 20

/-- Number of (unsampled) pixels of a strip, the normalizer of every
average: w * strip_height as f32. -/
def pixel_count (w : ℕ) : ℚ := ((w * 40 : ℕ) : ℚ)

/-- Average per-pixel no-shift difference between the two centred strips
(step 3 of the detector). -/
def avg_diff (prev curr : Raster) : ℚ :=
  compute_strip_diff (to_grayscale prev) (to_grayscale curr)
    (template_y prev.height) (template_y prev.height) prev.width 40
    / pixel_count prev.width

/-- Search bound of the detector: half the frame height capped at 300. -/
def search_range (h : ℕ) : ℤ := min ((h : ℤ) / 2) 300

/-- Best (score, signed offset) pair after the coarse pass and the
refinement pass. -/
def best_pair (prev curr : Raster) : ℚ × ℤ :=
  refine_search (to_grayscale prev) (to_grayscale curr) prev.width prev.height
    (template_y prev.height) (search_range prev.height)
    (coarse_search (to_grayscale prev) (to_grayscale curr) prev.width prev.height
      (template_y prev.height) (search_range prev.height))

/-- Signed offset proposed by the search. -/
def best_offset (prev curr : Raster) : ℤ := (best_pair prev curr).2

/-- Average per-pixel difference of the best match. -/
def match_avg (prev curr : Raster) : ℚ := (best_pair prev curr).1 / pixel_count prev.width

/-- Improvement ratio of the best match over the no-shift baseline. -/
def improvement (prev curr : Raster) : ℚ :=
  avg_diff prev curr / max (match_avg prev curr) (1 / 1000)

/-- Position of the verification strip: near the top quarter for a downward
shift, near the bottom quarter for an upward shift. -/
def verify_y (prev curr : Raster) : ℕ :=
  if best_offset prev curr > 0 then
    min (prev.height / 4) (template_y prev.height - 40)
  else
    max (prev.height * 3 / 4) (template_y prev.height + 40)

/-- Position the verification strip is compared against: verify_y shifted
by the proposed offset, clamped into [0, h - strip_height]. -/
def verify_search_y (prev curr : Raster) : ℕ :=
  (max 0 (min ((verify_y prev curr : ℤ) + best_offset prev curr)
    ((prev.height : ℤ) - 40))).toNat

/-- Average per-pixel difference of the verification strip at the proposed
offset. -/
def verify_avg (prev curr : Raster) : ℚ :=
  compute_strip_diff (to_grayscale prev) (to_grayscale curr)
    (verify_y prev curr) (verify_search_y prev curr) prev.width 40
    / pixel_count prev.width

/-- Shallow embedding of detect_scroll_delta_fft (fft_match.rs): dimension
and minimum-height guard, near-identical early exit, coarse-to-fine strip
search, the two quality gates, and the verification-strip gate.  Each named
definition above embeds the Rust local of the same name. -/
def detect_scroll_delta_fft (prev curr : Raster) : ℤ :=
  if prev.width ≠ curr.width ∨ prev.height ≠ curr.height ∨ prev.height < 40 then 0
  else if avg_diff prev curr < 5 then 0
  else if improvement prev curr < 2 ∨ match_avg prev curr > 30 then 0
  else if verify_avg prev curr > 40 then 0
  else best_offset prev curr

/-- Capture region in logical screen coordinates (types.rs Region). -/
structure Region where
  x : ℤ
  y : ℤ
  width : ℕ
  height : ℕ
deriving DecidableEq

/-- Progress snapshot returned to the caller (types.rs
ScrollCaptureProgress).  The base64 JPEG preview string is presentation
plumbing and is not modelled. -/
structure ScrollCaptureProgress where
  frame_count : ℕ
  total_height : ℕ
deriving DecidableEq

/-- The scroll-capture slice of the shared AppState (state.rs), together
with the selected region the scroll commands read. -/
structure AppState where
  region : Option Region
  scroll_capturing : Bool
  scroll_frames : List Raster
  scroll_offsets : List ℤ
  scroll_stitched : Option Raster
deriving DecidableEq

/-- Outcome of the external screen enumeration plus frame grab that a
command performs: enumeration error, empty screen list, capture error, or a
captured frame. -/
inductive CaptureOutcome where
  | screensError (e : String)
  | noScreens
  | captureError (e : String)
  | ok (frame : Raster)
deriving DecidableEq

/-- Result of one capture cycle.  A Rust panic (the .unwrap() of the
stitched image) is kept apart from ordinary command errors. -/
inductive CycleResult where
  | panic
  | err (e : String)
  | ok (progress : Option ScrollCaptureProgress)
deriving DecidableEq

/-- Shallow embedding of start_scroll_capture: require a region, clear the
scroll state and raise the capturing flag, then attempt the initial frame;
on success seed frames, offsets and the stitched image with it.  The
returned pair is (state after the command, command result). -/
def start_scroll_capture (st : AppState) (outcome : CaptureOutcome) :
    AppState × Except String ScrollCaptureProgress :=
  match st.region with
  | none => (st, Except.error "No region selected")
  | some _ =>
    let st1 := { st with scroll_frames := [], scroll_offsets := [],
                         scroll_stitched := none, scroll_capturing := true }
    match outcome with
    | .screensError e => (st1, Except.error e)
    | .noScreens => (st1, Except.error "No screens found")
    | .captureError e => (st1, Except.error e)
    | .ok frame =>
      let st2 := { st1 with scroll_frames := [frame], scroll_offsets := [0],
                            scroll_stitched := some frame }
      (st2, Except.ok ⟨1, frame.height⟩)

/-- Shallow embedding of capture_scroll_frame_auto: guard the capturing
flag and the region, obtain a frame, run the detector against the last
frame; a delta of magnitude below 10 is the no-update outcome, otherwise
stitch onto the composed image and append frame and cumulative offset. -/
def capture_scroll_frame_auto (st : AppState) (outcome : CaptureOutcome) :
    AppState × CycleResult :=
  if st.scroll_capturing = false then (st, .err "Not in scroll capture mode")
  else
    match st.region with
    | none => (st, .err "No region selected")
    | some _ =>
      match outcome with
      | .screensError e => (st, .err e)
      | .noScreens => (st, .err "No screens found")
      | .captureError e => (st, .err e)
      | .ok new_frame =>
        match st.scroll_frames.getLast? with
        | none => (st, .err "No previous frame")
        | some last_frame =>
          let scroll_delta := detect_scroll_delta_fft last_frame new_frame
          if scroll_delta.natAbs < 10 then (st, .ok none)
          else
            match st.scroll_stitched with
            | none => (st, .panic)
            | some base =>
              match stitch_scroll_image base new_frame scroll_delta with
              | Except.error e => (st, .err e)
              | Except.ok stitched =>
                let last_offset := st.scroll_offsets.getLast?.getD 0
                let new_offset := last_offset + scroll_delta
                let st2 := { st with
                  scroll_frames := st.scroll_frames ++ [new_frame],
                  scroll_offsets := st.scroll_offsets ++ [new_offset],
                  scroll_stitched := some stitched }
                (st2, .ok (some ⟨st2.scroll_frames.length, stitched.height⟩))

/-- Shallow embedding of get_scroll_preview: report the composed image
without mutating anything. -/
def get_scroll_preview (st : AppState) :
    AppState × Except String ScrollCaptureProgress :=
  match st.scroll_stitched with
  | some stitched => (st, Except.ok ⟨st.scroll_frames.length, stitched.height⟩)
  | none => (st, Except.error "No scroll capture in progress")

/-- Shallow embedding of finish_scroll_capture: take the stitched image out
of the state and clear the scroll state, then apply the crop and hand the
result to the save collaborator (modelled by save_result). -/
def finish_scroll_capture (st : AppState) (path : String) (crop : Option CropEdges)
    (save_result : Except String Unit) : AppState × Except String String :=
  match st.scroll_stitched with
  | none => (st, Except.error "No stitched image")
  | some stitched =>
    let st1 := { st with scroll_stitched := none, scroll_capturing := false,
                         scroll_frames := [], scroll_offsets := [] }
    match apply_crop stitched crop with
    | Except.error e => (st1, Except.error e)
    | Except.ok _ =>
      match save_result with
      | Except.error e => (st1, Except.error e)
      | Except.ok _ => (st1, Except.ok path)

/-- Shallow embedding of stop_scroll_capture: lower the capturing flag but
keep frames, offsets and the composed image. -/
def stop_scroll_capture (st : AppState) : AppState :=
  { st with scroll_capturing := false }

/-- Shallow embedding of cancel_scroll_capture: discard everything. -/
def cancel_scroll_capture (st : AppState) : AppState :=
  { st with scroll_capturing := false, scroll_frames := [],
            scroll_offsets := [], scroll_stitched := none }

/-- Session state invariant: one offset per frame, and a composed image
present whenever at least one frame is. -/
def StateInv (st : AppState) : Prop :=
  st.scroll_frames.length = st.scroll_offsets.length ∧
  (st.scroll_frames ≠ [] → st.scroll_stitched.isSome)

/-- Uniform gray pixel of the given intensity; its luminance is exactly the
intensity, since the three weights sum to one. -/
def grayPix (v : ℕ) : Pix := ⟨v, v, v, 255⟩

/-- Concrete 1 x 61 frame: a vertical intensity ramp. -/
def prevW : Raster := ⟨1, 61, (List.range 61).map (fun y => grayPix y)⟩

/-- Concrete 1 x 61 frame: the ramp scrolled up by 10 rows (row y shows what
row y + 10 of prevW showed), with fresh content in the last rows. -/
def currW : Raster :=
  ⟨1, 61, (List.range 61).map (fun y => grayPix (if y ≤ 50 then y + 10 else 0))⟩

/-- Concrete 1 x 40 frame of zero pixels. -/
def rSmall : Raster := ⟨1, 40, List.replicate 40 Pix.zero⟩

/-- Concrete 2 x 50 frame of zero pixels (width differs from rSmall). -/
def rNarrow : Raster := ⟨2, 50, List.replicate 100 Pix.zero⟩

/-- Concrete 1 x 2 stitch base. -/
def baseS : Raster := ⟨1, 2, [grayPix 1, grayPix 2]⟩

/-- Concrete 1 x 3 new frame for stitching. -/
def newS : Raster := ⟨1, 3, [grayPix 3, grayPix 4, grayPix 5]⟩

/-- Concrete 2 x 1 frame whose width differs from baseS. -/
def wideS : Raster := ⟨2, 1, [grayPix 6, grayPix 7]⟩

/-- Concrete selected region. -/
def regionEx : Region := ⟨0, 0, 100, 100⟩

/-- Concrete 1 x 10 composed image. -/
def img110 : Raster := ⟨1, 10, (List.range 10).map (fun y => grayPix y)⟩

/-- Crop of 60 percent from top and bottom: exceeds any height. -/
def cropBig : CropEdges := ⟨60, 60, 0, 0⟩

/-- Concrete mid-session state holding a composed image. -/
def stFin : AppState := ⟨some regionEx, true, [img110], [0], some img110⟩

/-- Concrete idle state with a region selected. -/
def stIdle : AppState := ⟨some regionEx, false, [], [], none⟩

/-- The empty (zero by zero) image. -/
def img00 : Raster := ⟨0, 0, []⟩

/-- The all-zero crop specification. -/
def crop0 : CropEdges := ⟨0, 0, 0, 0⟩

/-- Concrete 2 x 2 image. -/
def img22 : Raster := ⟨2, 2, List.replicate 4 (grayPix 9)⟩

/-- Crop of 50 percent from top and bottom: exactly exhausts the height. -/
def cropHalf : CropEdges := ⟨50, 50, 0, 0⟩

/-- Concrete 1 x 1 frame. -/
def frameB : Raster := ⟨1, 1, [grayPix 5]⟩

/-- Concrete capturing state seeded with frameB. -/
def stCap : AppState := ⟨some regionEx, true, [frameB], [0], some frameB⟩

/-! Helper lemmas about the raster constructions. -/

theorem getD_range_map {α : Type} (n k : ℕ) (f : ℕ → α) (d : α) (hk : k < n) :
    ((List.range n).map f).getD k d = f k := by
  rw [List.getD_eq_getElem?_getD, List.getElem?_map, List.getElem?_range hk]
  rfl

theorem mul_add_lt (x y w h : ℕ) (hx : x < w) (hy : y < h) : y * w + x < w * h := by
  calc y * w + x < y * w + w := by omega
    _ = (y + 1) * w := by ring
    _ ≤ h * w := Nat.mul_le_mul_right w hy
    _ = w * h := Nat.mul_comm h w

theorem mod_of_row_major (x y w : ℕ) (hx : x < w) : (y * w + x) % w = x := by
  rw [Nat.mul_comm, Nat.mul_add_mod, Nat.mod_eq_of_lt hx]

theorem div_of_row_major (x y w : ℕ) (hx : x < w) : (y * w + x) / w = y := by
  rw [Nat.mul_comm, Nat.mul_add_div (by omega), Nat.div_eq_of_lt hx]
  omega

/-- Pixel access on a raster whose buffer is generated from an index
function: the generator evaluated at the row-major index. -/
theorem getPixel_mk (w h : ℕ) (F : ℕ → Pix) (x y : ℕ) (hx : x < w) (hy : y < h) :
    (Raster.mk w h ((List.range (w * h)).map F)).getPixel x y = F (y * w + x) := by
  unfold Raster.getPixel
  exact getD_range_map _ _ _ _ (mul_add_lt x y w h hx hy)

/-- A strip compared against itself has zero difference. -/
theorem compute_strip_diff_self (g : List ℚ) (y w h : ℕ) :
    compute_strip_diff g g y y w h = 0 := by
  unfold compute_strip_diff
  apply List.sum_eq_zero
  intro q hq
  simp only [List.mem_flatMap, List.mem_map, List.mem_filter] at hq
  obtain ⟨dy, -, dx, -, rfl⟩ := hq
  split
  · simp
  · rfl

/-- C5: whenever the base and the new frame differ in width, stitching
fails with the frame width mismatch error; it neither panics nor truncates,
since the embedding returns the error before touching any pixel. -/
theorem stitch_width_mismatch (base new_frame : Raster) (d : ℤ)
    (h : base.width ≠ new_frame.width) :
    stitch_scroll_image base new_frame d = Except.error "Frame width mismatch" := by
  unfold stitch_scroll_image
  rw [if_pos h]

/-- Witness for C5 at a concrete width mismatch (1 versus 2). -/
theorem stitch_width_mismatch_witness :
    stitch_scroll_image baseS wideS 5 = Except.error "Frame width mismatch" :=
  stitch_width_mismatch baseS wideS 5 (by decide)

/-- C6: on two bit-identical rasters the detector reports 0 (for any
dimensions, in particular the valid ones of height at least 40), and more
generally whenever the no-shift average strip difference is below the
near-identical threshold 5 the detector reports 0. -/
theorem detect_noop (prev curr : Raster) :
    (prev = curr → detect_scroll_delta_fft prev curr = 0) ∧
    (avg_diff prev curr < 5 → detect_scroll_delta_fft prev curr = 0) := by
  constructor
  · rintro rfl
    unfold detect_scroll_delta_fft
    by_cases h1 : prev.width ≠ prev.width ∨ prev.height ≠ prev.height ∨ prev.height < 40
    · rw [if_pos h1]
    · have hz : avg_diff prev prev = 0 := by
        unfold avg_diff
        rw [compute_strip_diff_self, zero_div]
      rw [if_neg h1, if_pos (by rw [hz]; norm_num)]
  · intro h
    unfold detect_scroll_delta_fft
    by_cases h1 : prev.width ≠ curr.width ∨ prev.height ≠ curr.height ∨ prev.height < 40
    · rw [if_pos h1]
    · rw [if_neg h1, if_pos h]

/-- Witness for C6 on a concrete 1 x 40 raster compared with itself. -/
theorem detect_noop_witness : detect_scroll_delta_fft rSmall rSmall = 0 :=
  (detect_noop rSmall rSmall).1 rfl

/-- Range discipline of a proposed offset: zero, or of magnitude between
the minimum detectable delta 10 and the search bound. -/
def offset_in_range (sr o : ℤ) : Prop :=
  o = 0 ∨ (10 ≤ o.natAbs ∧ (o.natAbs : ℤ) ≤ sr)

theorem coarse_offsets_mem (sr o : ℤ) (ho : o ∈ coarse_offsets sr) :
    10 ≤ o ∧ o ≤ sr := by
  unfold coarse_offsets at ho
  split at ho
  · simp at ho
  · rename_i hsr
    obtain ⟨k, hk, hko⟩ := List.mem_map.mp ho
    rw [List.mem_range] at hk
    subst hko
    have h8 : (sr - 10).toNat / 8 * 8 ≤ (sr - 10).toNat := Nat.div_mul_le_self _ 8
    omega

theorem int_range_mem (lo hi o : ℤ) (ho : o ∈ int_range lo hi) :
    lo ≤ o ∧ o ≤ hi := by
  unfold int_range at ho
  obtain ⟨k, hk, hko⟩ := List.mem_map.mp ho
  rw [List.mem_range] at hk
  subst hko
  omega

theorem coarse_step_inv (pg cg : List ℚ) (w h ty : ℕ) (sr : ℤ) (st : ℚ × ℤ) (o : ℤ)
    (hst : offset_in_range sr st.2) (ho : 10 ≤ o ∧ o ≤ sr) :
    offset_in_range sr (coarse_step pg cg w h ty st o).2 := by
  unfold offset_in_range at hst ⊢
  unfold coarse_step
  dsimp only
  split_ifs <;> (try dsimp only) <;> omega

theorem foldl_coarse_inv (pg cg : List ℚ) (w h ty : ℕ) (sr : ℤ) (l : List ℤ) :
    ∀ st : ℚ × ℤ, (∀ o ∈ l, 10 ≤ o ∧ o ≤ sr) → offset_in_range sr st.2 →
      offset_in_range sr (l.foldl (coarse_step pg cg w h ty) st).2 := by
  induction l with
  | nil => intro st _ hst; exact hst
  | cons a l ih =>
    intro st hl hst
    simp only [List.foldl_cons]
    exact ih _ (fun o ho => hl o (List.mem_cons_of_mem a ho))
      (coarse_step_inv pg cg w h ty sr st a hst (hl a (List.mem_cons_self a l)))

theorem coarse_search_inv (pg cg : List ℚ) (w h ty : ℕ) (sr : ℤ) :
    offset_in_range sr (coarse_search pg cg w h ty sr).2 := by
  unfold coarse_search
  exact foldl_coarse_inv pg cg w h ty sr (coarse_offsets sr) (f32MAX, 0)
    (fun o ho => coarse_offsets_mem sr o ho) (Or.inl rfl)

theorem refine_step_inv (pg cg : List ℚ) (w h ty : ℕ) (sr dir : ℤ)
    (hdir : dir = 1 ∨ dir = -1) (st : ℚ × ℤ) (o : ℤ)
    (hst : offset_in_range sr st.2) (ho : 10 ≤ o ∧ o ≤ sr) :
    offset_in_range sr (refine_step pg cg w h ty dir st o).2 := by
  unfold offset_in_range at hst ⊢
  unfold refine_step
  dsimp only
  split_ifs <;> (try dsimp only) <;> rcases hdir with rfl | rfl <;> omega

theorem foldl_refine_inv (pg cg : List ℚ) (w h ty : ℕ) (sr dir : ℤ)
    (hdir : dir = 1 ∨ dir = -1) (l : List ℤ) :
    ∀ st : ℚ × ℤ, (∀ o ∈ l, 10 ≤ o ∧ o ≤ sr) → offset_in_range sr st.2 →
      offset_in_range sr (l.foldl (refine_step pg cg w h ty dir) st).2 := by
  induction l with
  | nil => intro st _ hst; exact hst
  | cons a l ih =>
    intro st hl hst
    simp only [List.foldl_cons]
    exact ih _ (fun o ho => hl o (List.mem_cons_of_mem a ho))
      (refine_step_inv pg cg w h ty sr dir hdir st a hst (hl a (List.mem_cons_self a l)))

theorem refine_search_inv (pg cg : List ℚ) (w h ty : ℕ) (sr : ℤ) (st : ℚ × ℤ)
    (hst : offset_in_range sr st.2) :
    offset_in_range sr (refine_search pg cg w h ty sr st).2 := by
  unfold refine_search
  dsimp only
  apply foldl_refine_inv
  · split_ifs
    · exact Or.inl rfl
    · exact Or.inr rfl
  · intro o ho
    have hm := int_range_mem _ _ o ho
    have h1 : (10 : ℤ) ≤ max ((st.2.natAbs : ℤ) - 8) 10 := le_max_right _ _
    have h2 : min ((st.2.natAbs : ℤ) + 8) sr ≤ sr := min_le_right _ _
    omega
  · exact hst

theorem best_pair_inv (p c : Raster) :
    offset_in_range (search_range p.height) (best_pair p c).2 := by
  unfold best_pair
  exact refine_search_inv _ _ _ _ _ _ _ (coarse_search_inv _ _ _ _ _ _)

/-- A nonzero detector result comes out of the final branch: it equals the
proposed best offset and every acceptance gate held. -/
theorem detect_nonzero_spec (p c : Raster) (h : detect_scroll_delta_fft p c ≠ 0) :
    detect_scroll_delta_fft p c = best_offset p c ∧
    2 ≤ improvement p c ∧ match_avg p c ≤ 30 ∧ verify_avg p c ≤ 40 := by
  unfold detect_scroll_delta_fft at h ⊢
  by_cases h1 : p.width ≠ c.width ∨ p.height ≠ c.height ∨ p.height < 40
  · rw [if_pos h1] at h; exact absurd rfl h
  · rw [if_neg h1] at h ⊢
    by_cases h2 : avg_diff p c < 5
    · rw [if_pos h2] at h; exact absurd rfl h
    · rw [if_neg h2] at h ⊢
      by_cases h3 : improvement p c < 2 ∨ match_avg p c > 30
      · rw [if_pos h3] at h; exact absurd rfl h
      · rw [if_neg h3] at h ⊢
        by_cases h4 : verify_avg p c > 40
        · rw [if_pos h4] at h; exact absurd rfl h
        · rw [if_neg h4] at h ⊢
          push_neg at h3 h4
          exact ⟨rfl, h3.1, h3.2, h4⟩

/-- C4: the detector returns a nonzero offset only when all acceptance
gates pass: at least a twofold improvement of the best average strip
difference over the no-shift baseline, best average below the absolute
ceiling 30, and the verification strip (taken near the top quarter for a
downward shift, near the bottom quarter for an upward shift, by definition
of verify_y) within the looser ceiling 40 at the proposed offset; the
result is then exactly the proposed best offset, so whenever any gate
fails the result is 0. -/
theorem detect_gates (prev curr : Raster)
    (h : detect_scroll_delta_fft prev curr ≠ 0) :
    2 ≤ improvement prev curr ∧ match_avg prev curr ≤ 30 ∧
    verify_avg prev curr ≤ 40 ∧
    detect_scroll_delta_fft prev curr = best_offset prev curr := by
  obtain ⟨he, h2, h3, h4⟩ := detect_nonzero_spec prev curr h
  exact ⟨h2, h3, h4, he⟩

/-- C7: the detector returns 0 as soon as the rasters differ in width or in
height or the height is below 40; and any nonzero result has magnitude at
least 10 and at most min(height / 2, 300). -/
theorem detect_bounds (prev curr : Raster) :
    ((prev.width ≠ curr.width ∨ prev.height ≠ curr.height ∨ prev.height < 40) →
      detect_scroll_delta_fft prev curr = 0) ∧
    (detect_scroll_delta_fft prev curr ≠ 0 →
      10 ≤ (detect_scroll_delta_fft prev curr).natAbs ∧
      ((detect_scroll_delta_fft prev curr).natAbs : ℤ) ≤ min ((prev.height : ℤ) / 2) 300) := by
  constructor
  · intro h1
    unfold detect_scroll_delta_fft
    rw [if_pos h1]
  · intro h
    obtain ⟨he, -, -, -⟩ := detect_nonzero_spec prev curr h
    have hb := best_pair_inv prev curr
    unfold offset_in_range search_range at hb
    unfold best_offset at he
    rw [he] at h ⊢
    rcases hb with hb | hb
    · exact absurd hb h
    · exact hb

theorem except_bind_ok {α β : Type} (a : α) (f : α → Except String β) :
    (Except.ok a >>= f) = f a := rfl

theorem copyFrom_ok (dest src : Raster) (x y : ℕ)
    (hx : src.width + x ≤ dest.width) (hy : src.height + y ≤ dest.height) :
    copyFrom dest src x y = Except.ok ⟨dest.width, dest.height,
      (List.range (dest.width * dest.height)).map (fun k =>
        let px := k % dest.width
        let py := k / dest.width
        if x ≤ px ∧ px < x + src.width ∧ y ≤ py ∧ py < y + src.height then
          src.getPixel (px - x) (py - y)
        else
          dest.getPixel px py)⟩ := by
  unfold copyFrom
  rw [if_neg (by omega)]

/-- C3: a stitch of equal-width frames at a nonzero offset succeeds; the
result keeps the base width and has height base.height plus the offset
magnitude clamped to the new frame height (so the composed height never
decreases across accepted stitches); in the no-overlap case the height is
exactly the sum of both heights and the result is the plain vertical
concatenation, new content after the base for a positive offset and before
it for a negative one. -/
theorem stitch_spec (base new_frame : Raster) (d : ℤ)
    (hw : base.width = new_frame.width) (hd : d ≠ 0) :
    ∃ res, stitch_scroll_image base new_frame d = Except.ok res ∧
      res.width = base.width ∧
      res.height = base.height + min d.natAbs new_frame.height ∧
      base.height ≤ res.height ∧
      (new_frame.height ≤ d.natAbs →
        res.height = base.height + new_frame.height ∧
        (0 < d → ∀ x y, x < res.width →
          (y < base.height → res.getPixel x y = base.getPixel x y) ∧
          (y < new_frame.height →
            res.getPixel x (base.height + y) = new_frame.getPixel x y)) ∧
        (d < 0 → ∀ x y, x < res.width →
          (y < new_frame.height → res.getPixel x y = new_frame.getPixel x y) ∧
          (y < base.height →
            res.getPixel x (new_frame.height + y) = base.getPixel x y))) := by
  unfold stitch_scroll_image
  dsimp only
  rw [if_neg (by omega)]
  by_cases hpos : d > 0
  · rw [if_pos hpos]
    by_cases hge : d.natAbs ≥ new_frame.height
    · rw [if_pos hge]
      rw [copyFrom_ok _ _ _ _ ?ha1 ?ha2, except_bind_ok]
      case ha1 => simp [imageNew]
      case ha2 => simp [imageNew]
      dsimp only [imageNew]
      rw [copyFrom_ok _ _ _ _ ?hb1 ?hb2, except_bind_ok]
      case hb1 => dsimp only; omega
      case hb2 => dsimp only; omega
      dsimp only
      refine ⟨_, rfl, rfl, ?_, ?_, ?_⟩
      · show base.height + new_frame.height = base.height + min d.natAbs new_frame.height
        omega
      · show base.height ≤ base.height + new_frame.height
        omega
      · intro _
        refine ⟨rfl, fun _ x y hx => ?_, fun hneg => absurd hpos (by omega)⟩
        replace hx : x < base.width := hx
        constructor
        · intro hy
          rw [getPixel_mk _ _ _ x y hx (by omega)]
          simp only [mod_of_row_major x y base.width hx, div_of_row_major x y base.width hx]
          rw [if_neg (by omega)]
          rw [getPixel_mk _ _ _ x y hx (by omega)]
          simp only [mod_of_row_major x y base.width hx, div_of_row_major x y base.width hx]
          rw [if_pos (by omega)]
          simp
        · intro hy
          rw [getPixel_mk _ _ _ x (base.height + y) hx (by omega)]
          simp only [mod_of_row_major x (base.height + y) base.width hx,
            div_of_row_major x (base.height + y) base.width hx]
          rw [if_pos (by omega)]
          simp
    · rw [if_neg hge]
      rw [copyFrom_ok _ _ _ _ ?hc1 ?hc2, except_bind_ok]
      case hc1 => simp [imageNew]
      case hc2 => simp [imageNew]
      dsimp only [imageNew]
      rw [copyFrom_ok _ _ _ _ ?hd1 ?hd2, except_bind_ok]
      case hd1 => simp [cropImm]; omega
      case hd2 => simp [cropImm]; omega
      dsimp only
      exact ⟨_, rfl, rfl, rfl, Nat.le_add_right _ _, fun hle => absurd hle (by omega)⟩
  · rw [if_neg hpos]
    have hneg : d < 0 := by omega
    by_cases hge : d.natAbs ≥ new_frame.height
    · rw [if_pos hge]
      rw [copyFrom_ok _ _ _ _ ?he1 ?he2, except_bind_ok]
      case he1 => simp [imageNew]; omega
      case he2 => simp [imageNew]
      dsimp only [imageNew]
      rw [copyFrom_ok _ _ _ _ ?hf1 ?hf2, except_bind_ok]
      case hf1 => dsimp only; omega
      case hf2 => dsimp only; omega
      dsimp only
      refine ⟨_, rfl, rfl, ?_, ?_, ?_⟩
      · show new_frame.height + base.height = base.height + min d.natAbs new_frame.height
        omega
      · show base.height ≤ new_frame.height + base.height
        omega
      · intro _
        refine ⟨by show new_frame.height + base.height = base.height + new_frame.height; omega,
          fun hp => absurd hp hpos, fun _ x y hx => ?_⟩
        replace hx : x < base.width := hx
        constructor
        · intro hy
          rw [getPixel_mk _ _ _ x y hx (by omega)]
          simp only [mod_of_row_major x y base.width hx, div_of_row_major x y base.width hx]
          rw [if_neg (by omega)]
          rw [getPixel_mk _ _ _ x y hx (by omega)]
          simp only [mod_of_row_major x y base.width hx, div_of_row_major x y base.width hx]
          rw [if_pos (by omega)]
          simp
        · intro hy
          rw [getPixel_mk _ _ _ x (new_frame.height + y) hx (by omega)]
          simp only [mod_of_row_major x (new_frame.height + y) base.width hx,
            div_of_row_major x (new_frame.height + y) base.width hx]
          rw [if_pos (by omega)]
          simp
    · rw [if_neg hge]
      rw [copyFrom_ok _ _ _ _ ?hg1 ?hg2, except_bind_ok]
      case hg1 => simp [imageNew, cropImm]; omega
      case hg2 => simp [imageNew, cropImm]
      dsimp only [imageNew]
      rw [copyFrom_ok _ _ _ _ ?hh1 ?hh2, except_bind_ok]
      case hh1 => dsimp only; omega
      case hh2 => dsimp only; omega
      dsimp only
      exact ⟨_, rfl, rfl, rfl, Nat.le_add_right _ _, fun hle => absurd hle (by omega)⟩

/-- Witness for C3 at a concrete no-overlap downward stitch (1 x 2 base,
1 x 3 new frame, offset 5). -/
theorem stitch_spec_witness :
    ∃ res, stitch_scroll_image baseS newS 5 = Except.ok res ∧
      res.width = baseS.width ∧
      res.height = baseS.height + min (5 : ℤ).natAbs newS.height ∧
      baseS.height ≤ res.height :=
  let ⟨res, h1, h2, h3, h4, _⟩ := stitch_spec baseS newS 5 rfl (by decide)
  ⟨res, h1, h2, h3, h4⟩

/-- C9: a capture cycle whose detector delta has magnitude below the
stability threshold 10 (in particular a 0 result) is a no-op: the session
state is returned unchanged, and the result is the distinguished no-update
outcome, a value different from every updated-progress and every error
result by construction of CycleResult. -/
theorem capture_small_delta_noop (st : AppState) (new_frame last_frame : Raster)
    (r : Region)
    (hc : st.scroll_capturing = true)
    (hr : st.region = some r)
    (hl : st.scroll_frames.getLast? = some last_frame)
    (hd : (detect_scroll_delta_fft last_frame new_frame).natAbs < 10) :
    capture_scroll_frame_auto st (.ok new_frame) = (st, .ok none) := by
  unfold capture_scroll_frame_auto
  rw [hc, hr, hl]
  simp only [Bool.true_eq_false, if_false]
  rw [if_pos hd]

/-- Witness for C9: capturing the very same frame again is a no-op. -/
theorem capture_small_delta_noop_witness :
    capture_scroll_frame_auto stCap (.ok frameB) = (stCap, .ok none) :=
  capture_small_delta_noop stCap frameB frameB regionEx rfl rfl rfl (by decide)

/-- C10: every session operation preserves the state invariant (one offset
per frame, and a composed image present whenever a frame is), and under the
invariant the capture cycle can never reach the panicking unwrap of the
stitched image. -/
theorem session_ops_preserve_inv (st : AppState) (hinv : StateInv st) :
    (∀ o, StateInv (start_scroll_capture st o).1) ∧
    (∀ o, StateInv (capture_scroll_frame_auto st o).1 ∧
      (capture_scroll_frame_auto st o).2 ≠ CycleResult.panic) ∧
    StateInv (get_scroll_preview st).1 ∧
    (∀ path crop sres, StateInv (finish_scroll_capture st path crop sres).1) ∧
    StateInv (stop_scroll_capture st) ∧
    StateInv (cancel_scroll_capture st) := by
  refine ⟨?_, ?_, ?_, ?_, ?_, ?_⟩
  · intro o
    unfold start_scroll_capture
    cases hreg : st.region
    · exact hinv
    · cases o <;> simp [StateInv]
  · intro o
    unfold capture_scroll_frame_auto
    by_cases hc : st.scroll_capturing = false
    · rw [if_pos hc]; exact ⟨hinv, by simp⟩
    · rw [if_neg hc]
      cases hreg : st.region
      · exact ⟨hinv, by simp⟩
      · cases o with
        | screensError e => exact ⟨hinv, by simp⟩
        | noScreens => exact ⟨hinv, by simp⟩
        | captureError e => exact ⟨hinv, by simp⟩
        | ok frame =>
          cases hlast : st.scroll_frames.getLast? with
          | none => exact ⟨hinv, by simp⟩
          | some lf =>
            dsimp only
            by_cases hsmall : (detect_scroll_delta_fft lf frame).natAbs < 10
            · rw [if_pos hsmall]; exact ⟨hinv, by simp⟩
            · rw [if_neg hsmall]
              have hful : st.scroll_frames ≠ [] := by
                intro hnil
                rw [hnil] at hlast
                simp at hlast
              have hsome := hinv.2 hful
              cases hst : st.scroll_stitched with
              | none => rw [hst] at hsome; simp at hsome
              | some b =>
                dsimp only
                cases hstitch :
                    stitch_scroll_image b frame (detect_scroll_delta_fft lf frame) with
                | error e => exact ⟨hinv, by simp⟩
                | ok stitched =>
                  refine ⟨⟨?_, ?_⟩, by simp⟩
                  · simp [hinv.1]
                  · intro _
                    simp
  · unfold get_scroll_preview
    cases hst : st.scroll_stitched
    · exact hinv
    · exact hinv
  · intro path crop sres
    unfold finish_scroll_capture
    cases hst : st.scroll_stitched with
    | none => exact hinv
    | some stitched =>
      dsimp only
      cases happ : apply_crop stitched crop with
      | error e => simp [StateInv]
      | ok img =>
        cases sres with
        | error e => simp [StateInv]
        | ok u => simp [StateInv]
  · exact ⟨hinv.1, hinv.2⟩
  · simp [StateInv, cancel_scroll_capture]

/-- Witness for C10: the invariant holds of the concrete capturing state
and is preserved by cancelling it. -/
theorem session_ops_preserve_inv_witness :
    StateInv (cancel_scroll_capture stCap) :=
  (session_ops_preserve_inv stCap ⟨rfl, fun _ => rfl⟩).2.2.2.2.2

/-- C2 counterexample: Start on an idle state with a selected region,
failing because no screens are found, reports the error but leaves the
capturing flag raised, so the session state is not reset to its pre-start
(inactive) state. -/
theorem start_failure_counterexample :
    (start_scroll_capture stIdle .noScreens).2 = Except.error "No screens found" ∧
    (start_scroll_capture stIdle .noScreens).1.scroll_capturing = true ∧
    stIdle.scroll_capturing = false :=
  ⟨rfl, rfl, rfl⟩

/-- C2 (amended): if Start fails after a region has been selected (screen
enumeration error, empty screen list, or capture error), the frames and
offsets are left empty and the composed image absent, but the capturing
flag remains raised: the session is left marked active rather than fully
reset. -/
theorem start_failure_state (st : AppState) (r : Region) (o : CaptureOutcome)
    (hr : st.region = some r) (ho : ∀ f, o ≠ .ok f) :
    (∃ e, (start_scroll_capture st o).2 = Except.error e) ∧
    (start_scroll_capture st o).1.scroll_frames = [] ∧
    (start_scroll_capture st o).1.scroll_offsets = [] ∧
    (start_scroll_capture st o).1.scroll_stitched = none ∧
    (start_scroll_capture st o).1.scroll_capturing = true := by
  unfold start_scroll_capture
  rw [hr]
  cases o with
  | screensError e => exact ⟨⟨e, rfl⟩, rfl, rfl, rfl, rfl⟩
  | noScreens => exact ⟨⟨"No screens found", rfl⟩, rfl, rfl, rfl, rfl⟩
  | captureError e => exact ⟨⟨e, rfl⟩, rfl, rfl, rfl, rfl⟩
  | ok f => exact absurd rfl (ho f)

/-- Witness for the amended C2 at the concrete no-screens failure. -/
theorem start_failure_state_witness :
    (∃ e, (start_scroll_capture stIdle .noScreens).2 = Except.error e) ∧
    (start_scroll_capture stIdle .noScreens).1.scroll_frames = [] ∧
    (start_scroll_capture stIdle .noScreens).1.scroll_offsets = [] ∧
    (start_scroll_capture stIdle .noScreens).1.scroll_stitched = none ∧
    (start_scroll_capture stIdle .noScreens).1.scroll_capturing = true :=
  start_failure_state stIdle regionEx .noScreens rfl (fun _ h => nomatch h)

theorem crop_px_nonpos (p : ℚ) (hp : p ≤ 0) (d : ℕ) : crop_px p d = 0 := by
  have hq : p / 100 * (d : ℚ) ≤ 0 := by
    apply mul_nonpos_of_nonpos_of_nonneg
    · exact div_nonpos_of_nonpos_of_nonneg hp (by norm_num)
    · exact Nat.cast_nonneg d
  unfold crop_px f32_round
  rw [Int.toNat_eq_zero]
  split_ifs with h0
  · have hz : p / 100 * (d : ℚ) = 0 := le_antisymm hq h0
    rw [hz]
    simp
  · simp only [neg_nonpos]
    rw [round_eq]
    apply Int.floor_nonneg.mpr
    push_neg at h0
    linarith

/-- C1 (amended): when Finish is invoked on a session holding a composed
image with a crop that has a positive edge and whose rounded pixel counts
exhaust the width or the height, the operation fails with the
crop-exceeds-bounds error, but the session state has already been cleared:
the composed image is removed and frames, offsets and the capturing flag
are reset, so the caller cannot simply retry Finish with a different
crop. -/
theorem finish_crop_error_clears_state (st : AppState) (img : Raster) (path : String)
    (c : CropEdges) (sres : Except String Unit)
    (hst : st.scroll_stitched = some img)
    (hpos : c.top > 0 ∨ c.bottom > 0 ∨ c.left > 0 ∨ c.right > 0)
    (hexceed : img.width ≤ crop_px c.left img.width + crop_px c.right img.width ∨
      img.height ≤ crop_px c.top img.height + crop_px c.bottom img.height) :
    (finish_scroll_capture st path (some c) sres).2 =
      Except.error "Crop exceeds image bounds" ∧
    (finish_scroll_capture st path (some c) sres).1 =
      { st with scroll_stitched := none, scroll_capturing := false,
                scroll_frames := [], scroll_offsets := [] } := by
  have hcrop : apply_crop img (some c) = Except.error "Crop exceeds image bounds" := by
    unfold apply_crop
    dsimp only
    rw [if_pos hpos, if_pos (by omega)]
  unfold finish_scroll_capture
  rw [hst]
  dsimp only
  rw [hcrop]
  exact ⟨rfl, rfl⟩

/-- C8 (amended): for every image of positive width and height and every
crop specification, apply_crop fails with the crop-exceeds-bounds error
exactly when, after rounding each percentage against the current
dimensions, left plus right pixels reach the width or top plus bottom
pixels reach the height; and every success has the exact cropped dimensions
and is never zero-sized. -/
theorem apply_crop_spec (img : Raster) (c : CropEdges)
    (hw : 0 < img.width) (hh : 0 < img.height) :
    (apply_crop img (some c) = Except.error "Crop exceeds image bounds" ↔
      img.width ≤ crop_px c.left img.width + crop_px c.right img.width ∨
      img.height ≤ crop_px c.top img.height + crop_px c.bottom img.height) ∧
    (∀ res, apply_crop img (some c) = Except.ok res →
      res.width = img.width - crop_px c.left img.width - crop_px c.right img.width ∧
      res.height = img.height - crop_px c.top img.height - crop_px c.bottom img.height ∧
      0 < res.width ∧ 0 < res.height) := by
  by_cases hpos : c.top > 0 ∨ c.bottom > 0 ∨ c.left > 0 ∨ c.right > 0
  · unfold apply_crop
    dsimp only
    rw [if_pos hpos]
    by_cases hbound : crop_px c.left img.width + crop_px c.right img.width ≥ img.width ∨
        crop_px c.top img.height + crop_px c.bottom img.height ≥ img.height
    · rw [if_pos hbound]
      constructor
      · constructor
        · intro _
          omega
        · intro _
          rfl
      · intro res hres
        exact absurd hres (by simp)
    · rw [if_neg hbound]
      push_neg at hbound
      constructor
      · constructor
        · intro h
          exact absurd h (by simp)
        · intro h
          exact absurd h (by omega)
      · intro res hres
        rw [Except.ok.injEq] at hres
        subst hres
        refine ⟨?_, ?_, ?_, ?_⟩ <;> simp [cropImm] <;> omega
  · unfold apply_crop
    dsimp only
    rw [if_neg hpos]
    push_neg at hpos
    obtain ⟨h1, h2, h3, h4⟩ := hpos
    rw [crop_px_nonpos c.left h3, crop_px_nonpos c.right h4,
      crop_px_nonpos c.top h1, crop_px_nonpos c.bottom h2]
    constructor
    · constructor
      · intro h
        exact absurd h (by simp)
      · intro h
        exact absurd h (by omega)
    · intro res hres
      rw [Except.ok.injEq] at hres
      subst hres
      exact ⟨by omega, by omega, hw, hh⟩

section RatEval

attribute [local semireducible] Rat.add Rat.mul Rat.inv Rat.sub Rat.ofScientific

set_option maxRecDepth 400000 in
/-- Witness for C4: on the concrete ramp pair the detector reports the
nonzero offset -10, and the gates indeed hold there. -/
theorem detect_gates_witness :
    detect_scroll_delta_fft prevW currW ≠ 0 ∧
    (2 ≤ improvement prevW currW ∧ match_avg prevW currW ≤ 30 ∧
     verify_avg prevW currW ≤ 40 ∧
     detect_scroll_delta_fft prevW currW = best_offset prevW currW) :=
  ⟨by decide, detect_gates prevW currW (by decide)⟩

set_option maxRecDepth 400000 in
/-- Witness for C7: mismatched dimensions give 0, and the concrete nonzero
result -10 lies within [10, min(61 / 2, 300)] in magnitude. -/
theorem detect_bounds_witness :
    detect_scroll_delta_fft rSmall rNarrow = 0 ∧
    (10 ≤ (detect_scroll_delta_fft prevW currW).natAbs ∧
     ((detect_scroll_delta_fft prevW currW).natAbs : ℤ) ≤
       min ((prevW.height : ℤ) / 2) 300) :=
  ⟨(detect_bounds rSmall rNarrow).1 (by decide),
   (detect_bounds prevW currW).2 (by decide)⟩

/-- C1 counterexample: finishing the session stFin (which holds a 1 x 10
composed image) with a 60 percent top and bottom crop fails with the
crop-exceeds-bounds error, yet the composed image is no longer in the
session state afterwards — it is not left untouched for a retry. -/
theorem finish_crop_counterexample :
    (finish_scroll_capture stFin "out.png" (some cropBig) (Except.ok ())).2 =
      Except.error "Crop exceeds image bounds" ∧
    (finish_scroll_capture stFin "out.png" (some cropBig) (Except.ok ())).1.scroll_stitched =
      none ∧
    stFin.scroll_stitched = some img110 := by
  refine ⟨by decide, rfl, rfl⟩

/-- Witness for the amended C1 at the concrete over-large crop. -/
theorem finish_crop_error_clears_state_witness :
    (finish_scroll_capture stFin "save.png" (some cropBig) (Except.ok ())).2 =
      Except.error "Crop exceeds image bounds" ∧
    (finish_scroll_capture stFin "save.png" (some cropBig) (Except.ok ())).1 =
      { stFin with scroll_stitched := none, scroll_capturing := false,
                   scroll_frames := [], scroll_offsets := [] } :=
  finish_crop_error_clears_state stFin img110 "save.png" cropBig (Except.ok ()) rfl
    (by decide) (Or.inr (by decide))

/-- C8 counterexample: on the empty (zero by zero) image with the all-zero
crop specification, apply_crop succeeds and returns the zero-sized image
unchanged even though left_px + right_px ≥ width after rounding, so the
claimed exactly-when failure condition does not hold for every image. -/
theorem apply_crop_counterexample :
    apply_crop img00 (some crop0) = Except.ok img00 ∧
    img00.width ≤ crop_px crop0.left img00.width + crop_px crop0.right img00.width ∧
    img00.width = 0 := by
  refine ⟨by decide, by decide, rfl⟩

/-- Witness for the amended C8: a 50 percent top and bottom crop of a 2 x 2
image rounds to one pixel each, exhausting the height, so apply_crop fails
with the crop-exceeds-bounds error. -/
theorem apply_crop_spec_witness :
    apply_crop img22 (some cropHalf) = Except.error "Crop exceeds image bounds" :=
  (apply_crop_spec img22 cropHalf (by decide) (by decide)).1.mpr (Or.inr (by decide))

end RatEval

end Lovshot
